import Mathlib

/-!
Shallow embedding of the survey backend (`src/app/survey.py`, plus the
result-aggregation endpoint `src/flask_backend/surveys/survey_2/survey_2_results.py`)
into Lean 4, used to settle the claims of the specification against the code.

JSON/BSON documents are modelled by the inductive `Value`; the MongoDB
collections by association lists from collection name to document list; the
stateful Python methods by explicit state passing.  Python exceptions that the
code raises deliberately (`HTTPException`) become constructors of `Err`;
unhandled Python exceptions (`TypeError`, `KeyError`, `AssertionError`) become
the constructors `pyError` / `assertionError`.

Modules of the repository that are not under `src/` (`app/validation.py`,
`app/aggregation.py`, `app/utils.py`, `app/cryptography.py`) are modelled
abstractly (the validators as function parameters carried by the states) or,
where a claim needs their behaviour, from the spec — those definitions carry a
doc comment starting with `Modelled from the spec:`.
-/

/-- A Python/JSON value as it occurs in configurations, submissions and
stored documents. -/
inductive Value where
  | vnull : Value
  | vbool : Bool → Value
  | vint : Int → Value
  | vstr : String → Value
  | vlist : List Value → Value
  | vdict : List (String × Value) → Value
deriving Repr

mutual

/-- Boolean structural equality of values (Python `==` on JSON-like data). -/
def valueBEq : Value → Value → Bool
  | .vnull, .vnull => true
  | .vbool a, .vbool b => a == b
  | .vint a, .vint b => a == b
  | .vstr a, .vstr b => a == b
  | .vlist a, .vlist b => valueListBEq a b
  | .vdict a, .vdict b => valueDictBEq a b
  | _, _ => false

/-- Elementwise `valueBEq` on lists. -/
def valueListBEq : List Value → List Value → Bool
  | [], [] => true
  | x :: xs, y :: ys => valueBEq x y && valueListBEq xs ys
  | _, _ => false

/-- Entrywise `valueBEq` on dict entry lists. -/
def valueDictBEq : List (String × Value) → List (String × Value) → Bool
  | [], [] => true
  | (k, v) :: xs, (k2, v2) :: ys => k == k2 && valueBEq v v2 && valueDictBEq xs ys
  | _, _ => false

end

mutual

theorem valueBEq_iff : ∀ (a b : Value), valueBEq a b = true ↔ a = b
  | .vnull, .vnull => by simp [valueBEq]
  | .vbool _, .vbool _ => by simp [valueBEq]
  | .vint _, .vint _ => by simp [valueBEq]
  | .vstr _, .vstr _ => by simp [valueBEq]
  | .vlist a, .vlist b => by simp [valueBEq, valueListBEq_iff a b]
  | .vdict a, .vdict b => by simp [valueBEq, valueDictBEq_iff a b]
  | .vnull, .vbool _ => by simp [valueBEq]
  | .vnull, .vint _ => by simp [valueBEq]
  | .vnull, .vstr _ => by simp [valueBEq]
  | .vnull, .vlist _ => by simp [valueBEq]
  | .vnull, .vdict _ => by simp [valueBEq]
  | .vbool _, .vnull => by simp [valueBEq]
  | .vbool _, .vint _ => by simp [valueBEq]
  | .vbool _, .vstr _ => by simp [valueBEq]
  | .vbool _, .vlist _ => by simp [valueBEq]
  | .vbool _, .vdict _ => by simp [valueBEq]
  | .vint _, .vnull => by simp [valueBEq]
  | .vint _, .vbool _ => by simp [valueBEq]
  | .vint _, .vstr _ => by simp [valueBEq]
  | .vint _, .vlist _ => by simp [valueBEq]
  | .vint _, .vdict _ => by simp [valueBEq]
  | .vstr _, .vnull => by simp [valueBEq]
  | .vstr _, .vbool _ => by simp [valueBEq]
  | .vstr _, .vint _ => by simp [valueBEq]
  | .vstr _, .vlist _ => by simp [valueBEq]
  | .vstr _, .vdict _ => by simp [valueBEq]
  | .vlist _, .vnull => by simp [valueBEq]
  | .vlist _, .vbool _ => by simp [valueBEq]
  | .vlist _, .vint _ => by simp [valueBEq]
  | .vlist _, .vstr _ => by simp [valueBEq]
  | .vlist _, .vdict _ => by simp [valueBEq]
  | .vdict _, .vnull => by simp [valueBEq]
  | .vdict _, .vbool _ => by simp [valueBEq]
  | .vdict _, .vint _ => by simp [valueBEq]
  | .vdict _, .vstr _ => by simp [valueBEq]
  | .vdict _, .vlist _ => by simp [valueBEq]

theorem valueListBEq_iff : ∀ (a b : List Value), valueListBEq a b = true ↔ a = b
  | [], [] => by simp [valueListBEq]
  | x :: xs, y :: ys => by
      simp [valueListBEq, valueBEq_iff x y, valueListBEq_iff xs ys]
  | [], _ :: _ => by simp [valueListBEq]
  | _ :: _, [] => by simp [valueListBEq]

theorem valueDictBEq_iff :
    ∀ (a b : List (String × Value)), valueDictBEq a b = true ↔ a = b
  | [], [] => by simp [valueDictBEq]
  | (k, v) :: xs, (k2, v2) :: ys => by
      simp [valueDictBEq, valueBEq_iff v v2, valueDictBEq_iff xs ys, and_assoc]
  | [], _ :: _ => by simp [valueDictBEq]
  | _ :: _, [] => by simp [valueDictBEq]

end

instance : DecidableEq Value := fun a b => decidable_of_iff _ (valueBEq_iff a b)

/-- Association-list lookup on the entries of a dict (first match wins,
like Python dict access on a well-formed dict). -/
def lookupKey : List (String × Value) → String → Option Value
  | [], _ => none
  | (k, v) :: rest, key => if k = key then some v else lookupKey rest key

/-- The term `d[key]` for a dict value; `none` on a missing key or a non-dict
(in Python a `KeyError` / `TypeError`). -/
def dictGet (d : Value) (key : String) : Option Value :=
  match d with
  | .vdict entries => lookupKey entries key
  | _ => none

/-- The term `d[key] = v` on the entries of a dict: replaces the first binding of
`key`, or appends one (Python dicts keep insertion order). -/
def setKey : List (String × Value) → String → Value → List (String × Value)
  | [], key, v => [(key, v)]
  | (k, w) :: rest, key, v =>
      if k = key then (key, v) :: rest else (k, w) :: setKey rest key v

/-- The term `d[key] = v` for a dict value; the identity on a non-dict (our uses
are all on dicts). -/
def dictSet (d : Value) (key : String) (v : Value) : Value :=
  match d with
  | .vdict entries => .vdict (setKey entries key v)
  | _ => d

/-- The term `del d[key]` / the MongoDB projection `{key: False}`: drops every
binding of `key`. -/
def dictRemove (d : Value) (key : String) : Value :=
  match d with
  | .vdict entries => .vdict (entries.filter (fun kv => kv.1 ≠ key))
  | _ => d

/-- The term `key in d.keys()` for a dict value. -/
def hasKey (d : Value) (key : String) : Bool :=
  (dictGet d key).isSome

/-- Python truthiness of a value (`bool(v)`), as used by `x or y`. -/
def truthy : Value → Bool
  | .vnull => false
  | .vbool b => b
  | .vint n => n ≠ 0
  | .vstr s => s ≠ ""
  | .vlist l => ¬ l.isEmpty
  | .vdict l => ¬ l.isEmpty

/-- Python `a < b`: defined on two ints, a `TypeError` (`none`) as soon as
one side is `None` or otherwise non-comparable.  The code compares the
clock value (an int) against the configured `start`/`end`. -/
def pyLt (a b : Value) : Option Bool :=
  match a, b with
  | .vint x, .vint y => some (decide (x < y))
  | _, _ => none

/-- Python `a >= b`, with the same partiality as `pyLt`. -/
def pyGe (a b : Value) : Option Bool :=
  match a, b with
  | .vint x, .vint y => some (decide (x ≥ y))
  | _, _ => none

/-- The errors surfaced by the code: the `HTTPException`s it raises on
purpose, plus `assertionError` for a failing `assert`, `pyError` for an
unhandled `TypeError`/`KeyError`, and `nontermination` for the unbounded
token-retry loop failing to find a fresh token in the supplied stream. -/
inductive Err where
  | notFound
  | invalidConfiguration
  | invalidSubmission
  | notOpenYet
  | closed
  | notYetClosed
  | wrongMode
  | invalidToken
  | deliveryFailure
  | notImplementedMode
  | assertionError
  | pyError
  | nontermination
deriving DecidableEq, Repr

/-! ## The document store

A database is an association list from collection name to its list of
documents; a name that is absent denotes an empty (dropped) collection. -/

def Database := List (String × List Value)

/-- The documents of a named collection (empty for a dropped/absent one). -/
def getColl (db : Database) (name : String) : List Value :=
  match db.find? (fun c => c.1 = name) with
  | some c => c.2
  | none => []

/-- Replace the contents of a named collection. -/
def setColl (db : Database) (name : String) (docs : List Value) : Database :=
  match db with
  | [] => [(name, docs)]
  | c :: rest =>
      if c.1 = name then (name, docs) :: rest else c :: setColl rest name docs

/-- The term `database[name].drop()`: the collection disappears entirely. -/
def dropColl (db : Database) (name : String) : Database :=
  db.filter (fun c => c.1 ≠ name)

/-- A document matches a MongoDB equality filter when every filter key is
present in the document with exactly the filter value. -/
def docMatches (filt : List (String × Value)) (doc : Value) : Bool :=
  filt.all (fun kv => decide (dictGet doc kv.1 = some kv.2))

/-- The term `find_one(filter)`: the first matching document, if any. -/
def findOneDocs (docs : List Value) (filt : List (String × Value)) : Option Value :=
  docs.find? (docMatches filt)

/-- The term `find_one` against a named collection. -/
def findOneColl (db : Database) (name : String) (filt : List (String × Value)) :
    Option Value :=
  findOneDocs (getColl db name) filt

/-- Does some document of the list carry `_id` equal to `idv`
(the index-enforced uniqueness key)? -/
def hasId (docs : List Value) (idv : Value) : Bool :=
  docs.any (fun d => decide (dictGet d "_id" = some idv))

/-- The term `replace_one(filter, replacement)` on a document list: replaces the
first match and reports `matched_count` (0 or 1).  The replacement document
is stored as given (the code never relies on `_id` preservation here). -/
def replaceOneDocs (docs : List Value) (filt : List (String × Value))
    (repl : Value) : List Value × Nat :=
  match docs with
  | [] => ([], 0)
  | d :: rest =>
      if docMatches filt d then (repl :: rest, 1)
      else
        let (rest', n) := replaceOneDocs rest filt repl
        (d :: rest', n)

/-- The term `find_one_and_replace(filter, replacement, upsert=True)`: replace the
first match, or append the replacement when nothing matches. -/
def upsertDocs (docs : List Value) (filt : List (String × Value))
    (repl : Value) : List Value :=
  match docs with
  | [] => [repl]
  | d :: rest =>
      if docMatches filt d then repl :: rest else d :: upsertDocs rest filt repl

/-- The term `delete_one(filter)`: remove the first matching document. -/
def deleteOneDocs (docs : List Value) (filt : List (String × Value)) :
    List Value :=
  match docs with
  | [] => []
  | d :: rest =>
      if docMatches filt d then rest else d :: deleteOneDocs rest filt

/-- The term `delete_one` against a named collection. -/
def deleteOneColl (db : Database) (name : String) (filt : List (String × Value)) :
    Database :=
  setColl db name (deleteOneDocs (getColl db name) filt)

/-- Modelled from the spec: `combine` of `app/utils.py` (not under `src/`),
the byte-unambiguous composition of owner and survey name into the cache /
collection key, using a separator. -/
def combine (username survey_name : String) : String :=
  username ++ "." ++ survey_name

/-! ## The `Survey` class (`src/app/survey.py`, lines 181–286) -/

/-- The term `Survey._get_email_field_index(configuration)`: the 0-based index of the
first field whose `type` is `'email'`, or `None` when no such field exists
(`src/app/survey.py` lines 213–219).  The loop enumerates
`configuration['fields']`; a missing or non-list `'fields'` entry would be a
`KeyError`/`TypeError` in Python and yields `none` here as well — the theorems
about this function always supply a fields list. -/
def getEmailFieldIndex (configuration : Value) : Option Nat :=
  match dictGet configuration "fields" with
  | some (.vlist fields) =>
      fields.findIdx? (fun f => decide (dictGet f "type" = some (.vstr "email")))
  | _ => none

/-- One live survey object: the state `Survey.__init__` extracts from its
configuration (lines 184–211).  `validate` is the compiled
`SubmissionValidator` — `app/validation.py` is not under `src/`, so the
compiled validator is carried abstractly as a boolean function; `results` is
the in-memory memoized aggregate, initially `None` (`vnull`). -/
structure Survey where
  configuration : Value
  username : String
  survey_name : String
  start : Value
  end_ : Value
  authentication : Value
  ei : Option Nat
  validate : Value → Bool
  results : Value

/-- The pending-submissions collection name a `Survey` uses:
`f'surveys.{combine(username, survey_name)}.submissions'` (lines 201–205). -/
def pendingCollName (sv : Survey) : String :=
  "surveys." ++ combine sv.username sv.survey_name ++ ".submissions"

/-- The verified-submissions collection name a `Survey` uses:
`f'surveys.{combine(username, survey_name)}.submissions.verified'`
(lines 206–210).  Note this differs from the
`verified-submissions` suffix used by the manager's `_reset`/`_delete`. -/
def verifiedCollName (sv : Survey) : String :=
  "surveys." ++ combine sv.username sv.survey_name ++ ".submissions.verified"

/-- The term `Survey.__init__` (lines 184–211), given the compiled-validator factory
`compile` (standing for `SubmissionValidator.create` of the absent
`app/validation.py`).  Python would raise `KeyError` on a configuration
missing one of the read keys; that is the `none` case.  The identifiers are
strings in every route, so non-string `username`/`survey_name` are also
treated as the failure case. -/
def Survey.fromConfig (compile : Value → Value → Bool) (configuration : Value) :
    Option Survey :=
  match dictGet configuration "username",
        dictGet configuration "survey_name",
        dictGet configuration "start",
        dictGet configuration "end",
        dictGet configuration "authentication" with
  | some (.vstr u), some (.vstr n), some st, some en, some au =>
      some {
        configuration := configuration
        username := u
        survey_name := n
        start := st
        end_ := en
        authentication := au
        ei := getEmailFieldIndex configuration
        validate := compile configuration
        results := .vnull
      }
  | _, _, _, _, _ => none

/-- The email-field access `submission['data'][str(self.ei + 1)]` shared by
`submit` (line 248) and `verify` (line 271): `none` when `ei` is `None` (then
`self.ei + 1` is a `TypeError` in Python) or when the key `str(ei + 1)` is
absent from the data dict (a `KeyError`). -/
def emailAccess (ei : Option Nat) (data : Value) : Option Value :=
  match ei with
  | none => none
  | some i => dictGet data (toString (i + 1))

/-- The term `Survey.submit(submission)` (lines 221–254).  Explicit inputs replacing
the collaborators: `t` is `now()` (`app/utils.py` is absent; the clock is the
abstract collaborator of the spec), `tokens` is the stream of candidate
verification tokens that `vtoken()` (absent `app/cryptography.py`) would
generate — the unbounded collision-retry loop takes the first candidate whose
token is not an existing `_id`, and is charged with `nontermination` when the
finite stream has no fresh candidate — and `mailStatus` is the delivery status
the letterbox returns.  The result is the database after the call plus the
error raised, if any. -/
def Survey.submit (sv : Survey) (db : Database) (t : Int)
    (tokens : List String) (mailStatus : Int) (submission : Value) :
    Database × Option Err :=
  match pyLt (.vint t) sv.start with
  | none => (db, some .pyError)
  | some true => (db, some .notOpenYet)
  | some false =>
  match pyGe (.vint t) sv.end_ with
  | none => (db, some .pyError)
  | some true => (db, some .closed)
  | some false =>
  if ¬ sv.validate submission then (db, some .invalidSubmission)
  else
    let doc : Value := .vdict [("submission_time", .vint t), ("data", submission)]
    if sv.authentication = .vstr "open" then
      (setColl db (pendingCollName sv) (getColl db (pendingCollName sv) ++ [doc]),
       none)
    else if sv.authentication = .vstr "email" then
      match tokens.find? (fun tk => ¬ hasId (getColl db (pendingCollName sv)) (.vstr tk)) with
      | none => (db, some .nontermination)
      | some tk =>
        let doc2 := dictSet doc "_id" (.vstr tk)
        let db2 := setColl db (pendingCollName sv)
          (getColl db (pendingCollName sv) ++ [doc2])
        match dictGet sv.configuration "title" with
        | none => (db2, some .pyError)
        | some _ =>
          match emailAccess sv.ei submission with
          | none => (db2, some .pyError)
          | some _ =>
            if mailStatus ≠ 200 then (db2, some .deliveryFailure)
            else (db2, none)
    else if sv.authentication = .vstr "invitation" then
      (db, some .notImplementedMode)
    else
      (db, none)

/-- The term `Survey.verify(verification_token)` (lines 256–279).  On success the code
returns a redirect to the frontend success page; here success is the `none`
error.  Note the pending submission is looked up but never removed. -/
def Survey.verify (sv : Survey) (db : Database) (t : Int)
    (verification_token : String) : Database × Option Err :=
  if sv.authentication ≠ .vstr "email" then (db, some .wrongMode)
  else
  match pyLt (.vint t) sv.start with
  | none => (db, some .pyError)
  | some true => (db, some .notOpenYet)
  | some false =>
  match pyGe (.vint t) sv.end_ with
  | none => (db, some .pyError)
  | some true => (db, some .closed)
  | some false =>
  match findOneColl db (pendingCollName sv) [("_id", .vstr verification_token)] with
  | none => (db, some .invalidToken)
  | some submission =>
    let submission1 := dictSet submission "verification_time" (.vint t)
    match dictGet submission1 "data" with
    | none => (db, some .pyError)
    | some data =>
      match emailAccess sv.ei data with
      | none => (db, some .pyError)
      | some emailValue =>
        let submission2 := dictSet submission1 "_id" emailValue
        let db2 := setColl db (verifiedCollName sv)
          (upsertDocs (getColl db (verifiedCollName sv))
            [("_id", emailValue)] submission2)
        (db2, none)

/-- Modelled from the spec: the `Alligator` aggregation engine
(`app/aggregation.py` is not under `src/`).  Per §4.5 it is pure in the
verified-submission set: per field, by type — a choice (`radio`/`selection`)
field yields a per-option count map with a nested free-text-keyed map for
`other` responses; a boolean `option` field yields the count of truthy
selections; free-text/identity fields (`text`, `email`) are excluded from the
output; the field's 1-based position is its key in each submission's data;
zero verified submissions give the zero-initialized structure. -/
def alligatorFieldStat (idx : Nat) (field : Value) (docsData : List Value) :
    Option (String × Value) :=
  match dictGet field "type", dictGet field "title" with
  | some (.vstr "option"), some (.vstr title) =>
      some (title, .vint (docsData.countP (fun d =>
        match dictGet d (toString idx) with
        | some v => truthy v
        | none => false)))
  | some (.vstr "radio"), some (.vstr title) =>
      some (title, .vint (docsData.countP (fun d =>
        (dictGet d (toString idx)).isSome)))
  | some (.vstr "selection"), some (.vstr title) =>
      some (title, .vint (docsData.countP (fun d =>
        (dictGet d (toString idx)).isSome)))
  | _, _ => none

/-- Modelled from the spec: `Alligator(configuration, database).fetch()` —
the per-field statistics over the verified submissions, a dict keyed by field
title, excluding free-text/identity fields; the empty dict for a
configuration without aggregatable fields. -/
def alligatorFetch (configuration : Value) (verified : List Value) : Value :=
  match dictGet configuration "fields" with
  | some (.vlist fields) =>
      let docsData := verified.filterMap (fun d => dictGet d "data")
      .vdict ((List.enumFrom 1 fields).filterMap
        (fun fi => alligatorFieldStat fi.1 fi.2 docsData))
  | _ => .vdict []

/-- The term `Survey.aggregate()` (lines 281–286): gate on the closing time, then
`self.results = self.results or await self.alligator.fetch()` — a memo keyed
on Python truthiness of `self.results`.  Returns the survey (with its possibly
updated memo), the returned results value, and whether the Alligator was
invoked. -/
def Survey.aggregate (sv : Survey) (db : Database) (t : Int) :
    Except Err (Survey × Value × Bool) :=
  match pyLt (.vint t) sv.end_ with
  | none => .error .pyError
  | some true => .error .notYetClosed
  | some false =>
    if truthy sv.results then .ok (sv, sv.results, false)
    else
      let r := alligatorFetch sv.configuration (getColl db (verifiedCollName sv))
      .ok ({ sv with results := r }, r, true)

/-! ## The `SurveyManager` class (`src/app/survey.py`, lines 19–178)

The manager holds the database, the in-process cache of live `Survey`
objects keyed by `combine(username, survey_name)`, the
`ConfigurationValidator` (`cfgValidate`, abstract — `app/validation.py` is
not under `src/`) and the `SubmissionValidator.create` factory (`compile`,
abstract for the same reason).  The source cache is an `LRUCache` of capacity
256; its capacity bound and eviction policy affect none of the claims, so the
cache is modelled as the association list of its entries.  JWT authorization
(`app/cryptography.py`) is outside the claims and elided: the embedded
operations are the `_fetch`/`_update`/`_reset` bodies reached after
authorization. -/

structure Manager where
  db : Database
  cache : List (String × Survey)
  cfgValidate : Value → Bool
  compile : Value → Value → Bool

/-- Cache lookup by survey id (`survey_id in self.cache` / `self.cache[survey_id]`). -/
def cacheGet (cache : List (String × Survey)) (survey_id : String) :
    Option Survey :=
  match cache.find? (fun c => c.1 = survey_id) with
  | some c => some c.2
  | none => none

/-- Cache overwrite at a survey id (`self.cache[survey_id] = ...`). -/
def cacheSet (cache : List (String × Survey)) (survey_id : String)
    (sv : Survey) : List (String × Survey) :=
  match cache with
  | [] => [(survey_id, sv)]
  | c :: rest =>
      if c.1 = survey_id then (survey_id, sv) :: rest
      else c :: cacheSet rest survey_id sv

/-- The term `SurveyManager._update_cache(configuration)` (lines 37–47): build a fresh
`Survey` from the configuration and store it under
`combine(configuration['username'], configuration['survey_name'])`.  Python
raises on a missing key or a failing `Survey.__init__`; that is the `none`
case. -/
def managerUpdateCache (m : Manager) (configuration : Value) : Option Manager :=
  match dictGet configuration "username", dictGet configuration "survey_name" with
  | some (.vstr u), some (.vstr n) =>
      match Survey.fromConfig m.compile configuration with
      | some sv => some { m with cache := cacheSet m.cache (combine u n) sv }
      | none => none
  | _, _ => none

/-- The term `SurveyManager._fetch(username, survey_name)` (lines 91–102): the cached
`Survey` if present, else load the configuration document (with the `_id`
projected away), build the `Survey`, cache it, and return the cache entry. -/
def managerFetchSurvey (m : Manager) (username survey_name : String) :
    Manager × Except Err Survey :=
  match cacheGet m.cache (combine username survey_name) with
  | some sv => (m, .ok sv)
  | none =>
    match findOneColl m.db "configurations"
        [("username", .vstr username), ("survey_name", .vstr survey_name)] with
    | none => (m, .error .notFound)
    | some configuration =>
      match managerUpdateCache m (dictRemove configuration "_id") with
      | none => (m, .error .pyError)
      | some m2 =>
        match cacheGet m2.cache (combine username survey_name) with
        | some sv => (m2, .ok sv)
        | none => (m2, .error .pyError)

/-- The term `SurveyManager.fetch(username, survey_name)` (lines 49–57): `_fetch`, then
the public projection `{key: configuration[key] for key not in ['username']}`
of the survey's configuration. -/
def managerFetch (m : Manager) (username survey_name : String) :
    Manager × Except Err Value :=
  match managerFetchSurvey m username survey_name with
  | (m2, .error e) => (m2, .error e)
  | (m2, .ok sv) =>
    match sv.configuration with
    | .vdict entries =>
        (m2, .ok (.vdict (entries.filter (fun kv => kv.1 ≠ "username"))))
    | _ => (m2, .error .pyError)

/-- The term `SurveyManager._update(username, survey_name, configuration)`
(lines 129–153): validate, set `configuration['username']`, `replace_one`
against the store, fail on zero matches, then the two consecutive assertions
`assert '_id' not in configuration.keys()` and
`assert '_id' in configuration.keys()`, and only after them the cache
refresh.  A non-dict configuration body cannot occur through the typed route;
it is mapped to `pyError`. -/
def managerUpdate (m : Manager) (username survey_name : String)
    (configuration : Value) : Manager × Option Err :=
  match configuration with
  | .vdict _ =>
    if ¬ m.cfgValidate configuration then (m, some .invalidConfiguration)
    else
      let configuration := dictSet configuration "username" (.vstr username)
      let res := replaceOneDocs (getColl m.db "configurations")
        [("username", .vstr username), ("survey_name", .vstr survey_name)]
        configuration
      let m2 := { m with db := setColl m.db "configurations" res.1 }
      if res.2 = 0 then (m2, some .notFound)
      else
        -- assert '_id' not in configuration.keys()
        if hasKey configuration "_id" then (m2, some .assertionError)
        else
          -- assert '_id' in configuration.keys()
          if ¬ hasKey configuration "_id" then (m2, some .assertionError)
          else
            match managerUpdateCache m2 configuration with
            | some m3 => (m3, none)
            | none => (m2, some .pyError)
  | _ => (m, some .pyError)

/-- The term `SurveyManager._reset(username, survey_name)` (lines 161–166): delete the
memoized result document of the key from `results`, then drop
`surveys.{survey_id}.submissions` and `surveys.{survey_id}.verified-submissions`.
The cache is not touched. -/
def managerReset (m : Manager) (username survey_name : String) : Manager :=
  let survey_id := combine username survey_name
  let db1 := deleteOneColl m.db "results" [("_id", .vstr survey_id)]
  let db2 := dropColl db1 ("surveys." ++ survey_id ++ ".submissions")
  let db3 := dropColl db2 ("surveys." ++ survey_id ++ ".verified-submissions")
  { m with db := db3 }

/-! ## The survey-2 results endpoint
(`src/flask_backend/surveys/survey_2/survey_2_results.py`)

`fetch()` builds per-referat results over the verified records of the
`fvv-ss20-referate` survey.  The records list is the endpoint's input (the
`verified_entries_collection.find(...)` collaborator); the
`formatting.status('ok', results=results)` wrapper of the absent
`support_functions` module is elided — `survey2Fetch` returns the `results`
dict itself.  The record accesses `record['election'][referat][name]` raise
`KeyError` in Python on malformed records; every such crash is the `none`
result.  Bucket keys of the free-text `andere` maps are strings in every
record (the data is JSON), so a non-string list entry is also mapped to the
crash case. -/

/-- The electee list iterated by both loops of `fetch` (lines 11–22 and
39–50). -/
def survey2Electees : List String :=
  ["erstsemester.koenigbaur", "erstsemester.wernsdorfer", "erstsemester.andere",
   "veranstaltungen.ritter", "veranstaltungen.pro", "veranstaltungen.andere",
   "skripte.lukasch", "skripte.limant", "skripte.andere",
   "quantum.albrecht", "quantum.roithmaier", "quantum.andere",
   "kooperationen.winckler", "kooperationen.andere",
   "it.kalk", "it.sittig", "it.andere",
   "evaluationen.reichelt", "evaluationen.andere",
   "hochschulpolitik.armbruster", "hochschulpolitik.paulus",
   "hochschulpolitik.andere",
   "finanzen.spicker", "finanzen.schuh", "finanzen.andere",
   "pr.werle", "pr.andere"]

/-- The term `str.split('.')` at the character level (structural recursion so that
concrete evaluations reduce): accumulate the current chunk, cut at every
dot. -/
def splitChars : List Char → List Char → List (List Char)
  | [], acc => [acc.reverse]
  | c :: rest, acc =>
      if c = '.' then acc.reverse :: splitChars rest []
      else splitChars rest (c :: acc)

/-- The term `electee.split('.')` for the electee strings of the two loops. -/
def splitOnDot (s : String) : List String :=
  (splitChars s.data []).map String.mk

/-- The term `electee.split('.')[0]` — the referat part. -/
def refOf (electee : String) : Option String := (splitOnDot electee).get? 0

/-- The term `electee.split('.')[1]` — the name part. -/
def nameOf (electee : String) : Option String := (splitOnDot electee).get? 1

/-- One step of the initialization loop (lines 11–32): ensure
`results[referat]` exists, then set `results[referat][name]` to `{}` for
`andere` and `0` otherwise. -/
def survey2InitStep (results : Value) (electee : String) : Option Value :=
  match refOf electee, nameOf electee with
  | some referat, some name =>
      let results :=
        if ¬ hasKey results referat then dictSet results referat (.vdict [])
        else results
      match dictGet results referat with
      | some sub =>
          let entry : Value := if name = "andere" then .vdict [] else .vint 0
          some (dictSet results referat (dictSet sub name entry))
      | none => none
  | _, _ => none

/-- The zero-initialized results structure the first loop produces. -/
def survey2Init : Option Value :=
  survey2Electees.foldlM survey2InitStep (.vdict [])

/-- Lines 58–60 for one free-text value: create the bucket with count 0 when
absent, then increment it. -/
def andereBump (buckets : Value) (s : String) : Option Value :=
  let buckets :=
    if ¬ hasKey buckets s then dictSet buckets s (.vint 0) else buckets
  match dictGet buckets s with
  | some (.vint c) => some (dictSet buckets s (.vint (c + 1)))
  | _ => none

/-- Lines 57–60: the loop `for andere in andere_list` over one record's
`andere` list, bumping each listed value's bucket once per occurrence
(the code relies on the list being "already made unique" — line 55 — and
does not deduplicate). -/
def andereRecord (buckets : Value) (andereList : List Value) : Option Value :=
  andereList.foldlM
    (fun b a =>
      match a with
      | .vstr s => andereBump b s
      | _ => none)
    buckets

/-- One step of the counting loop (lines 39–62) for one record and one
electee. -/
def survey2CountStep (record : Value) (results : Value) (electee : String) :
    Option Value :=
  match refOf electee, nameOf electee with
  | some referat, some name =>
      match dictGet record "election" with
      | none => none
      | some election =>
          match dictGet election referat with
          | none => none
          | some refRecord =>
              if name = "andere" then
                match dictGet refRecord "andere" with
                | some (.vlist andereList) =>
                    match dictGet results referat with
                    | some sub =>
                        match dictGet sub "andere" with
                        | some buckets =>
                            match andereRecord buckets andereList with
                            | some buckets2 =>
                                some (dictSet results referat
                                  (dictSet sub "andere" buckets2))
                            | none => none
                        | none => none
                    | none => none
                | _ => none
              else
                match dictGet refRecord name with
                | none => none
                | some v =>
                    match dictGet results referat with
                    | some sub =>
                        match dictGet sub name with
                        | some (.vint c) =>
                            some (dictSet results referat (dictSet sub name
                              (.vint (c + (if truthy v then 1 else 0)))))
                        | _ => none
                    | none => none
  | _, _ => none

/-- The counting loop's whole inner pass for one record (lines 39–62). -/
def survey2ProcessRecord (results : Value) (record : Value) : Option Value :=
  survey2Electees.foldlM (survey2CountStep record) results

/-- The term `fetch()` (lines 5–64) over the given verified records. -/
def survey2Fetch (records : List Value) : Option Value :=
  match survey2Init with
  | none => none
  | some init => records.foldlM survey2ProcessRecord init

/-- The integer stored in a bucket dict under a key (0 when absent). -/
def curVal : Option Value → Int
  | some (.vint c) => c
  | _ => 0

/-- A bucket dict of `fetch`: a dict whose values are all ints. -/
def bucketsOk (b : Value) : Prop :=
  ∃ entries, b = Value.vdict entries ∧
    ∀ kv ∈ entries, ∃ c : Int, kv.2 = Value.vint c

/-- The per-referat bucket evolution of the counting loop over a record
list: starting from the empty bucket dict, apply the record-level loop
(lines 56–60) for each record's `andere` list in order. -/
def andereTally (lists : List (List Value)) : Option Value :=
  lists.foldlM andereRecord (.vdict [])

/-- Total multiplicity of a value across the records' `andere` lists. -/
def countSum (lists : List (List Value)) (x : Value) : Nat :=
  (lists.map (fun l => l.count x)).sum

/-! ## Concrete fixtures for the closed evaluations -/

/-- A concrete email-mode survey configuration: one email field, window
`[0, 100)`. -/
def cfgEmail : Value :=
  .vdict [
    ("username", .vstr "alice"),
    ("survey_name", .vstr "vote"),
    ("start", .vint 0),
    ("end", .vint 100),
    ("authentication", .vstr "email"),
    ("title", .vstr "Vote"),
    ("fields", .vlist [.vdict [("type", .vstr "email"),
                               ("title", .vstr "Your email")]])]

/-- The live `Survey` built from `cfgEmail` (with the trivial compiled
validator standing in for the absent `SubmissionValidator`). -/
def svEmail : Survey :=
  { configuration := cfgEmail
    username := "alice"
    survey_name := "vote"
    start := .vint 0
    end_ := .vint 100
    authentication := .vstr "email"
    ei := some 0
    validate := fun _ => true
    results := .vnull }

/-- A pending email-mode submission stored under token `tok1`, exactly as
`submit` inserts it. -/
def pendingDoc1 : Value :=
  .vdict [
    ("submission_time", .vint 1),
    ("data", .vdict [("1", .vstr "ada@example.com")]),
    ("_id", .vstr "tok1")]

/-- A second pending submission, same email address, different token. -/
def pendingDoc2 : Value :=
  .vdict [
    ("submission_time", .vint 2),
    ("data", .vdict [("1", .vstr "ada@example.com"), ("note", .vstr "later")]),
    ("_id", .vstr "tok2")]

/-- A database holding the two pending submissions of `svEmail` and nothing
else. -/
def dbEmail0 : Database :=
  [(pendingCollName svEmail, [pendingDoc1, pendingDoc2])]

/-- The open-mode variant of the fixture with a null `start` (unbounded per
the claim), used to exhibit the type-error behavior of the gate. -/
def svNullStart : Survey :=
  { svEmail with start := .vnull, authentication := .vstr "open" }

/-- The stored configuration before the update (open mode, title
`"Old title"`). -/
def cfgOld : Value :=
  .vdict [
    ("username", .vstr "alice"),
    ("survey_name", .vstr "vote"),
    ("start", .vint 0),
    ("end", .vint 100),
    ("authentication", .vstr "open"),
    ("title", .vstr "Old title"),
    ("fields", .vlist [.vdict [("type", .vstr "text"), ("title", .vstr "Q1")]])]

/-- The live `Survey` cached for `cfgOld`. -/
def svOld : Survey :=
  { configuration := cfgOld
    username := "alice"
    survey_name := "vote"
    start := .vint 0
    end_ := .vint 100
    authentication := .vstr "open"
    ei := none
    validate := fun _ => true
    results := .vnull }

/-- The update request body: the same survey with the new title
`"New title"` and a longer window (no `username` key — the route adds it). -/
def cfgNewBody : Value :=
  .vdict [
    ("survey_name", .vstr "vote"),
    ("start", .vint 0),
    ("end", .vint 200),
    ("authentication", .vstr "open"),
    ("title", .vstr "New title"),
    ("fields", .vlist [.vdict [("type", .vstr "text"), ("title", .vstr "Q1")]])]

/-- A manager whose store holds `cfgOld` and whose cache holds `svOld`. -/
def managerC2 : Manager :=
  { db := [("configurations", [cfgOld])]
    cache := [(combine "alice" "vote", svOld)]
    cfgValidate := fun _ => true
    compile := fun _ _ => true }

/-- The cached fixture `Survey` with a memoized in-memory aggregate. -/
def svCached : Survey :=
  { svEmail with results := .vdict [("Your email", .vint 1)] }

/-- A verified submission as `verify` stores it, sitting in the collection
`surveys.alice.vote.submissions.verified` the `Survey` object writes. -/
def verifiedDocC6 : Value :=
  .vdict [
    ("submission_time", .vint 1),
    ("data", .vdict [("1", .vstr "ada@example.com")]),
    ("_id", .vstr "ada@example.com"),
    ("verification_time", .vint 10)]

/-- The manager state before the reset: configuration, one pending and one
verified submission, a stored result document, and the cached `svCached`. -/
def managerC6 : Manager :=
  { db := [("configurations", [cfgEmail]),
           (pendingCollName svEmail, [pendingDoc1]),
           (verifiedCollName svEmail, [verifiedDocC6]),
           ("results", [.vdict [("_id", .vstr "alice.vote"),
                                ("count", .vint 1)]])]
    cache := [(combine "alice" "vote", svCached)]
    cfgValidate := fun _ => true
    compile := fun _ _ => true }

/-- A survey whose configuration has no aggregatable fields, so the
Alligator's zero-initialized result structure is the empty dict (falsy). -/
def svNoFields : Survey :=
  { configuration := .vdict [
      ("username", .vstr "alice"),
      ("survey_name", .vstr "empty"),
      ("start", .vint 0),
      ("end", .vint 10),
      ("authentication", .vstr "open"),
      ("title", .vstr "Empty"),
      ("fields", .vlist [])]
    username := "alice"
    survey_name := "empty"
    start := .vint 0
    end_ := .vint 10
    authentication := .vstr "open"
    ei := none
    validate := fun _ => true
    results := .vnull }

/-- An email-mode configuration *without* any email field — the state the
implicit precondition is about. -/
def cfgNoEmail : Value :=
  .vdict [
    ("username", .vstr "alice"),
    ("survey_name", .vstr "broken"),
    ("start", .vint 0),
    ("end", .vint 100),
    ("authentication", .vstr "email"),
    ("title", .vstr "Broken"),
    ("fields", .vlist [.vdict [("type", .vstr "text"), ("title", .vstr "Q1")]])]

/-- The live `Survey` for `cfgNoEmail`; its email-field index is `None`. -/
def svNoEmail : Survey :=
  { configuration := cfgNoEmail
    username := "alice"
    survey_name := "broken"
    start := .vint 0
    end_ := .vint 100
    authentication := .vstr "email"
    ei := none
    validate := fun _ => true
    results := .vnull }

/-- A database with one pending submission for `svNoEmail`. -/
def dbNoEmail : Database :=
  [(pendingCollName svNoEmail, [pendingDoc1])]

/-- A full verified record for the survey-2 endpoint, well-formed for all
ten referate, whose `pr` free-text list contains the same value twice —
the duplicate the endpoint comment assumes cannot happen ("List already
made unique") but never enforces. -/
def electionC8 : Value :=
  .vdict [
    ("erstsemester", .vdict [("koenigbaur", .vbool true),
      ("wernsdorfer", .vbool false), ("andere", .vlist [])]),
    ("veranstaltungen", .vdict [("ritter", .vbool false),
      ("pro", .vbool false), ("andere", .vlist [])]),
    ("skripte", .vdict [("lukasch", .vbool false),
      ("limant", .vbool false), ("andere", .vlist [])]),
    ("quantum", .vdict [("albrecht", .vbool false),
      ("roithmaier", .vbool false), ("andere", .vlist [])]),
    ("kooperationen", .vdict [("winckler", .vbool false),
      ("andere", .vlist [])]),
    ("it", .vdict [("kalk", .vbool false), ("sittig", .vbool false),
      ("andere", .vlist [])]),
    ("evaluationen", .vdict [("reichelt", .vbool false),
      ("andere", .vlist [])]),
    ("hochschulpolitik", .vdict [("armbruster", .vbool false),
      ("paulus", .vbool false), ("andere", .vlist [])]),
    ("finanzen", .vdict [("spicker", .vbool false),
      ("schuh", .vbool false), ("andere", .vlist [])]),
    ("pr", .vdict [("werle", .vbool false),
      ("andere", .vlist [.vstr "x", .vstr "x"])])]

/-- The full record wrapping `electionC8`. -/
def recordC8 : Value :=
  .vdict [("survey", .vstr "fvv-ss20-referate"), ("election", electionC8)]

/-! ## Lemmas about the store and dict primitives -/

theorem lookupKey_setKey_self (l : List (String × Value)) (k : String) (v : Value) :
    lookupKey (setKey l k v) k = some v := by
  induction l with
  | nil => simp [setKey, lookupKey]
  | cons kv rest ih =>
      obtain ⟨k1, w⟩ := kv
      by_cases h : k1 = k
      · simp [setKey, h, lookupKey]
      · simp [setKey, h, lookupKey, ih]

theorem lookupKey_setKey_other (l : List (String × Value)) (k w : String)
    (v : Value) (h : w ≠ k) :
    lookupKey (setKey l k v) w = lookupKey l w := by
  have h' : ¬ k = w := fun hh => h hh.symm
  induction l with
  | nil => simp [setKey, lookupKey, h']
  | cons kv rest ih =>
      obtain ⟨k1, x⟩ := kv
      by_cases hk : k1 = k
      · subst hk
        simp [setKey, lookupKey, h']
      · by_cases hw : k1 = w
        · simp [setKey, hk, lookupKey, hw, h]
        · simp [setKey, hk, lookupKey, hw, ih]

theorem dictGet_dictSet_self (entries : List (String × Value)) (k : String)
    (v : Value) :
    dictGet (dictSet (.vdict entries) k v) k = some v := by
  simp [dictSet, dictGet, lookupKey_setKey_self]

theorem dictGet_dictSet_other (d : Value) (k w : String) (v : Value)
    (h : w ≠ k) : dictGet (dictSet d k v) w = dictGet d w := by
  cases d <;> simp [dictSet, dictGet]
  exact lookupKey_setKey_other _ _ _ _ h

theorem getColl_cons (c : String × List Value) (rest : Database) (m : String) :
    getColl (c :: rest) m = if c.1 = m then c.2 else getColl rest m := by
  by_cases h : c.1 = m <;> simp [getColl, List.find?, h]

theorem getColl_setColl_self (db : Database) (n : String) (docs : List Value) :
    getColl (setColl db n docs) n = docs := by
  induction db with
  | nil => simp [setColl, getColl, List.find?]
  | cons c rest ih =>
      by_cases h : c.1 = n
      · simp [setColl, h, getColl_cons]
      · simp [setColl, h, getColl_cons, ih]

theorem getColl_setColl_other (db : Database) (n m : String)
    (docs : List Value) (h : m ≠ n) :
    getColl (setColl db n docs) m = getColl db m := by
  have h' : ¬ n = m := fun hh => h hh.symm
  induction db with
  | nil => simp [setColl, getColl, List.find?, h']
  | cons c rest ih =>
      by_cases hn : c.1 = n
      · simp [setColl, hn, getColl_cons, h']
      · simp [setColl, hn, getColl_cons, ih]

theorem dropColl_cons (c : String × List Value) (rest : Database) (n : String) :
    dropColl (c :: rest) n =
      if c.1 = n then dropColl rest n else c :: dropColl rest n := by
  by_cases h : c.1 = n <;> simp [dropColl, List.filter_cons, h]

theorem getColl_dropColl_self (db : Database) (n : String) :
    getColl (dropColl db n) n = [] := by
  induction db with
  | nil => simp [dropColl, getColl, List.find?]
  | cons c rest ih =>
      by_cases h : c.1 = n
      · simp [dropColl_cons, h, ih]
      · simp [dropColl_cons, h, getColl_cons, ih]

theorem getColl_dropColl_other (db : Database) (n m : String) (h : m ≠ n) :
    getColl (dropColl db n) m = getColl db m := by
  induction db with
  | nil => simp [dropColl, getColl]
  | cons c rest ih =>
      by_cases hn : c.1 = n
      · have hnm : ¬ n = m := fun hh => h hh.symm
        simp [dropColl_cons, hn, getColl_cons, hnm, ih]
      · simp [dropColl_cons, hn, getColl_cons, ih]

theorem docMatches_id (idv : Value) (doc : Value) :
    docMatches [("_id", idv)] doc = decide (dictGet doc "_id" = some idv) := by
  simp [docMatches]

/-- The pending and verified collection names of one survey differ (the
verified name carries the extra `.verified` suffix), so a write to one never
touches the other. -/
theorem pendingCollName_ne_verifiedCollName (sv : Survey) :
    pendingCollName sv ≠ verifiedCollName sv := by
  intro q
  have hq := congrArg String.length q
  simp only [pendingCollName, verifiedCollName, String.length_append] at hq
  have h1 : (".submissions" : String).length = 12 := by decide
  have h2 : (".submissions.verified" : String).length = 21 := by decide
  omega

/-- The term `find_one_and_replace(upsert=True)` on a collection whose filter matches
at most one document leaves exactly the replacement as the matching
document. -/
theorem upsertDocs_filter (docs : List Value) (filt : List (String × Value))
    (repl : Value) (hrepl : docMatches filt repl = true)
    (h : (docs.filter (docMatches filt)).length ≤ 1) :
    (upsertDocs docs filt repl).filter (docMatches filt) = [repl] := by
  induction docs with
  | nil => simp [upsertDocs, List.filter, hrepl]
  | cons d rest ih =>
      by_cases hd : docMatches filt d
      · have hlen : (rest.filter (docMatches filt)).length = 0 := by
          rw [List.filter_cons_of_pos hd, List.length_cons] at h
          omega
        have hrest : rest.filter (docMatches filt) = [] :=
          List.length_eq_zero.mp hlen
        simp [upsertDocs, hd, List.filter_cons_of_pos hrepl, hrest]
      · rw [List.filter_cons_of_neg hd] at h
        simp [upsertDocs, hd, List.filter_cons_of_neg hd, ih h]

theorem lookupKey_cons (k1 : String) (v1 : Value) (rest : List (String × Value))
    (k : String) :
    lookupKey ((k1, v1) :: rest) k
      = if k1 = k then some v1 else lookupKey rest k := rfl

/-- Looking a key up in a dict filtered of one key: `none` for the removed
key, unchanged for every other key. -/
theorem lookupKey_filter_ne (entries : List (String × Value)) (key k : String) :
    lookupKey (entries.filter (fun kv => kv.1 ≠ key)) k
      = if k = key then none else lookupKey entries k := by
  induction entries with
  | nil => simp [lookupKey, ite_self]
  | cons kv rest ih =>
      obtain ⟨k1, v1⟩ := kv
      rw [List.filter_cons]
      by_cases hk : k1 = key
      · rw [if_neg (by simp [hk]), ih]
        by_cases hkk : k = key
        · rw [if_pos hkk, if_pos hkk]
        · have hk1k : ¬ k1 = k := by rw [hk]; exact fun hh => hkk hh.symm
          rw [if_neg hkk, if_neg hkk, lookupKey_cons, if_neg hk1k]
      · rw [if_pos (by simp [hk]), lookupKey_cons]
        by_cases hkv : k1 = k
        · have hnk : ¬ k = key := by rw [← hkv]; exact hk
          rw [if_pos hkv, if_neg hnk, lookupKey_cons, if_pos hkv]
        · rw [if_neg hkv, ih]
          by_cases hkk : k = key
          · rw [if_pos hkk, if_pos hkk]
          · rw [if_neg hkk, if_neg hkk, lookupKey_cons, if_neg hkv]

/-- Membership after `setKey`: every entry is the new binding or an original
entry. -/
theorem setKey_mem (l : List (String × Value)) (k : String) (v : Value) :
    ∀ kv ∈ setKey l k v, kv = (k, v) ∨ kv ∈ l := by
  induction l with
  | nil =>
      intro kv h
      simp [setKey] at h
      simp [h]
  | cons hd rest ih =>
      obtain ⟨k1, w⟩ := hd
      intro kv h
      simp only [setKey] at h
      by_cases hk : k1 = k
      · rw [if_pos hk] at h
        rcases List.mem_cons.mp h with h | h
        · exact Or.inl h
        · exact Or.inr (List.mem_cons_of_mem _ h)
      · rw [if_neg hk] at h
        rcases List.mem_cons.mp h with h | h
        · exact Or.inr (by rw [h]; exact List.mem_cons_self _ _)
        · rcases ih kv h with h2 | h2
          · exact Or.inl h2
          · exact Or.inr (List.mem_cons_of_mem _ h2)

/-- A successful lookup comes from an entry of the list. -/
theorem lookupKey_mem (l : List (String × Value)) (k : String) (v : Value) :
    lookupKey l k = some v → (k, v) ∈ l := by
  induction l with
  | nil => intro h; simp [lookupKey] at h
  | cons hd rest ih =>
      obtain ⟨k1, w⟩ := hd
      intro h
      simp only [lookupKey] at h
      by_cases hk : k1 = k
      · rw [if_pos hk] at h
        injection h with h2
        subst hk; subst h2
        exact List.mem_cons_self _ _
      · rw [if_neg hk] at h
        exact List.mem_cons_of_mem _ (ih h)

/-- Inversion: a successful dict access means the value is a dict. -/
theorem dictGet_some_vdict (d : Value) (k : String) (v : Value)
    (h : dictGet d k = some v) : ∃ entries, d = Value.vdict entries := by
  cases d <;> simp [dictGet] at h ⊢

/-- Lemma: `findIdx?` returns `none` exactly when no element satisfies the
predicate (for any start index). -/
theorem findIdxQ_none_iff (p : Value → Bool) :
    ∀ (l : List Value) (i : Nat),
      List.findIdx? p l i = none ↔ ∀ f ∈ l, p f = false := by
  intro l
  induction l with
  | nil => intro i; simp [List.findIdx?]
  | cons x xs ih =>
      intro i
      by_cases hx : p x
      · simp [List.findIdx?, hx]
      · simp [List.findIdx?, hx, ih (i+1)]

/-- Lemma: `findIdx?` returns the index of the *first* element satisfying the
predicate. -/
theorem findIdxQ_some_spec (p : Value → Bool) :
    ∀ (l : List Value) (i j : Nat), List.findIdx? p l i = some j →
      i ≤ j ∧ (j - i) < l.length ∧
      (∃ f, l[j - i]? = some f ∧ p f = true) ∧
      (∀ k, k < j - i → ∀ g, l[k]? = some g → p g = false) := by
  intro l
  induction l with
  | nil => intro i j h; simp [List.findIdx?] at h
  | cons x xs ih =>
      intro i j h
      rw [show List.findIdx? p (x :: xs) i
            = if p x then some i else List.findIdx? p xs (i+1) from rfl] at h
      by_cases hx : p x
      · rw [if_pos hx] at h
        have hij : i = j := by simpa using h
        subst hij
        refine ⟨le_refl _, by simp, ⟨x, by simp, hx⟩, ?_⟩
        intro k hk
        omega
      · rw [if_neg hx] at h
        obtain ⟨hij, hlen, ⟨f, hf, hpf⟩, hmin⟩ := ih (i+1) j h
        have hji : j - i = (j - (i+1)) + 1 := by omega
        refine ⟨by omega, by simp; omega, ⟨f, ?_, hpf⟩, ?_⟩
        · rw [hji]
          simpa using hf
        · intro k hk g hg
          match k with
          | 0 =>
              simp at hg
              subst hg
              simpa using hx
          | k' + 1 =>
              rw [hji] at hk
              simp at hg
              exact hmin k' (by omega) g hg

theorem andereBump_props (b : Value) (s : String) (hok : bucketsOk b) :
    ∃ b2, andereBump b s = some b2 ∧ bucketsOk b2 ∧
      dictGet b2 s = some (.vint (curVal (dictGet b s) + 1)) ∧
      ∀ w : String, w ≠ s → dictGet b2 w = dictGet b w := by
  obtain ⟨entries, rfl, hints⟩ := hok
  by_cases hs : hasKey (Value.vdict entries) s
  · obtain ⟨v, hv⟩ := Option.isSome_iff_exists.mp hs
    obtain ⟨c, rfl⟩ := by
      have hmem := lookupKey_mem entries s v (by simpa [dictGet] using hv)
      exact hints (s, v) hmem
    refine ⟨dictSet (Value.vdict entries) s (.vint (c + 1)), ?_, ?_, ?_, ?_⟩
    · unfold andereBump
      rw [if_neg (by simp [hs])]
      simp only [hv]
    · refine ⟨setKey entries s (.vint (c + 1)), by simp [dictSet], ?_⟩
      intro kv hkv
      rcases setKey_mem entries s (.vint (c + 1)) kv hkv with h | h
      · exact ⟨c + 1, by rw [h]⟩
      · exact hints kv h
    · rw [dictGet_dictSet_self, hv]
      rfl
    · intro w hw
      exact dictGet_dictSet_other _ _ _ _ hw
  · have hnone : dictGet (Value.vdict entries) s = none := by
      rw [← Option.not_isSome_iff_eq_none]
      exact fun hh => hs hh
    refine ⟨dictSet (dictSet (Value.vdict entries) s (.vint 0)) s (.vint 1),
      ?_, ?_, ?_, ?_⟩
    · unfold andereBump
      rw [if_pos (by simp [hs])]
      have hget0 : dictGet (dictSet (Value.vdict entries) s (Value.vint 0)) s
          = some (Value.vint 0) := dictGet_dictSet_self entries s (Value.vint 0)
      simp only [hget0]
      norm_num
    · refine ⟨setKey (setKey entries s (.vint 0)) s (.vint 1), by simp [dictSet], ?_⟩
      intro kv hkv
      rcases setKey_mem _ s (.vint 1) kv hkv with h | h
      · exact ⟨1, by rw [h]⟩
      · rcases setKey_mem _ s (.vint 0) kv h with h2 | h2
        · exact ⟨0, by rw [h2]⟩
        · exact hints kv h2
    · rw [show dictSet (Value.vdict entries) s (Value.vint 0)
            = Value.vdict (setKey entries s (Value.vint 0)) from rfl]
      rw [dictGet_dictSet_self, hnone]
      rfl
    · intro w hw
      rw [show dictSet (Value.vdict entries) s (Value.vint 0)
            = Value.vdict (setKey entries s (Value.vint 0)) from rfl]
      rw [dictGet_dictSet_other _ _ _ _ hw]
      rw [show dictGet (Value.vdict (setKey entries s (Value.vint 0))) w
            = lookupKey (setKey entries s (Value.vint 0)) w from rfl]
      rw [lookupKey_setKey_other _ _ _ _ hw]
      rfl

theorem andereRecord_props :
    ∀ (l : List Value) (b : Value), bucketsOk b →
      (∀ a ∈ l, ∃ s : String, a = .vstr s) →
      ∃ b2, andereRecord b l = some b2 ∧ bucketsOk b2 ∧
        ∀ v : String,
          dictGet b2 v
            = if l.count (.vstr v) = 0 then dictGet b v
              else some (.vint (curVal (dictGet b v) + l.count (.vstr v))) := by
  intro l
  induction l with
  | nil =>
      intro b hok hstr
      exact ⟨b, rfl, hok, fun v => by simp⟩
  | cons a rest ih =>
      intro b hok hstr
      obtain ⟨s, rfl⟩ := hstr a (List.mem_cons_self _ _)
      obtain ⟨b1, hb1, hok1, hgs, hgo⟩ := andereBump_props b s hok
      obtain ⟨b2, hb2, hok2, hcount⟩ := ih b1 hok1
        (fun a ha => hstr a (List.mem_cons_of_mem _ ha))
      refine ⟨b2, ?_, hok2, ?_⟩
      · unfold andereRecord
        rw [List.foldlM_cons]
        simp only [hb1]
        exact hb2
      · intro v
        by_cases hv : v = s
        · subst hv
          have hc1 : curVal (dictGet b1 v) = curVal (dictGet b v) + 1 := by
            rw [hgs]; rfl
          have hcnt : (Value.vstr v :: rest).count (.vstr v)
              = rest.count (.vstr v) + 1 := by
            rw [List.count_cons]
            simp
          rw [hcount v, hcnt]
          by_cases hr : rest.count (.vstr v) = 0
          · rw [if_pos hr, hr, hgs]
            norm_num
          · rw [if_neg hr, if_neg (by omega), hc1]
            have harith : curVal (dictGet b v) + 1
                  + (rest.count (.vstr v) : Int)
                = curVal (dictGet b v) + ((rest.count (.vstr v) : Int) + 1) := by
              omega
            rw [harith]
            norm_num
        · have h1 : ¬ v = s := hv
          have h2 : ¬ s = v := fun hh => hv hh.symm
          have hcnt : (Value.vstr s :: rest).count (.vstr v)
              = rest.count (.vstr v) := by
            rw [List.count_cons]
            simp [h1, h2]
          rw [hcount v, hcnt, hgo v hv]

theorem andereFold_props :
    ∀ (lists : List (List Value)) (b : Value), bucketsOk b →
      (∀ l ∈ lists, ∀ a ∈ l, ∃ s : String, a = .vstr s) →
      ∃ b2, lists.foldlM andereRecord b = some b2 ∧ bucketsOk b2 ∧
        ∀ v : String,
          dictGet b2 v
            = if countSum lists (.vstr v) = 0 then dictGet b v
              else some (.vint (curVal (dictGet b v)
                  + (countSum lists (.vstr v) : Int))) := by
  intro lists
  induction lists with
  | nil =>
      intro b hok hstr
      exact ⟨b, rfl, hok, fun v => by simp [countSum]⟩
  | cons l rest ih =>
      intro b hok hstr
      obtain ⟨b1, hb1, hok1, hget1⟩ := andereRecord_props l b hok
        (hstr l (List.mem_cons_self _ _))
      obtain ⟨b2, hb2, hok2, hget2⟩ := ih b1 hok1
        (fun l2 hl2 => hstr l2 (List.mem_cons_of_mem _ hl2))
      refine ⟨b2, ?_, hok2, ?_⟩
      · rw [List.foldlM_cons]
        simp only [hb1]
        exact hb2
      · intro v
        have hsum : countSum (l :: rest) (.vstr v)
            = l.count (.vstr v) + countSum rest (.vstr v) := by
          simp [countSum]
        rw [hsum, hget2 v]
        by_cases hl : l.count (.vstr v) = 0
        · by_cases hr : countSum rest (.vstr v) = 0
          · rw [if_pos hr, if_pos (by omega), hget1 v, if_pos hl]
          · rw [if_neg hr, if_neg (by omega), hget1 v, if_pos hl]
            simp only [Option.some.injEq, Value.vint.injEq]
            omega
        · by_cases hr : countSum rest (.vstr v) = 0
          · rw [if_pos hr, if_neg (by omega), hget1 v, if_neg hl]
            simp only [Option.some.injEq, Value.vint.injEq]
            omega
          · rw [if_neg hr, if_neg (by omega), hget1 v, if_neg hl]
            simp only [Option.some.injEq, Value.vint.injEq, curVal]
            omega

/-- With duplicate-free lists, the total multiplicity of a value equals the
number of lists containing it. -/
theorem sum_counts_eq_countP (x : Value) :
    ∀ lists : List (List Value), (∀ l ∈ lists, l.Nodup) →
      countSum lists x = lists.countP (fun l => decide (x ∈ l)) := by
  intro lists
  induction lists with
  | nil => simp [countSum]
  | cons l rest ih =>
      intro hnd
      have hsum : countSum (l :: rest) x = l.count x + countSum rest x := by
        simp [countSum]
      rw [hsum, List.countP_cons,
          ih (fun l2 hl2 => hnd l2 (List.mem_cons_of_mem _ hl2))]
      by_cases hm : x ∈ l
      · have h1 : l.count x = 1 :=
          List.count_eq_one_of_mem (hnd l (List.mem_cons_self _ _)) hm
        simp [h1, hm]
        omega
      · have h0 : l.count x = 0 := List.count_eq_zero_of_not_mem hm
        simp [h0, hm]

/-- The success equation of `Survey.verify`: with the mode and time gates
passed, the pending submission found and the email value extractable, the
call upserts the re-keyed record into the verified store and succeeds. -/
theorem verify_success_eq (sv : Survey) (db : Database) (t : Int)
    (tok : String) (sub data ev : Value)
    (hauth : sv.authentication = .vstr "email")
    (hlt : pyLt (.vint t) sv.start = some false)
    (hge : pyGe (.vint t) sv.end_ = some false)
    (hfind : findOneColl db (pendingCollName sv) [("_id", .vstr tok)] = some sub)
    (hdata : dictGet (dictSet sub "verification_time" (.vint t)) "data" = some data)
    (hev : emailAccess sv.ei data = some ev) :
    Survey.verify sv db t tok =
      (setColl db (verifiedCollName sv)
        (upsertDocs (getColl db (verifiedCollName sv)) [("_id", ev)]
          (dictSet (dictSet sub "verification_time" (.vint t)) "_id" ev)),
       none) := by
  have hne : ¬ (Value.vstr "email" ≠ Value.vstr "email") := by simp
  unfold Survey.verify
  rw [hauth]
  simp only [hne, if_false, hlt, hge, hfind, hdata, hev]

/-- Lemma: `_update` never returns successfully and never reaches its final
cache-refresh line: every branch leaves the cache exactly as it was. -/
theorem managerUpdate_never_ok (m : Manager) (u n : String) (cfg : Value) :
    (managerUpdate m u n cfg).2 ≠ none ∧
    (managerUpdate m u n cfg).1.cache = m.cache := by
  unfold managerUpdate
  cases cfg <;> try simp
  split <;> try simp
  split <;> try simp
  split <;> try simp
  split <;> simp_all

/-- After a successful `_fetch`, the returned `Survey` is the one stored in
the (possibly just refreshed) cache under the key. -/
theorem managerFetchSurvey_cached (m : Manager) (u n : String)
    (m2 : Manager) (sv : Survey)
    (h : managerFetchSurvey m u n = (m2, .ok sv)) :
    cacheGet m2.cache (combine u n) = some sv := by
  unfold managerFetchSurvey at h
  split at h
  · rename_i sv0 hc
    obtain ⟨rfl, hsv⟩ := Prod.mk.injEq .. |>.mp h
    obtain rfl : sv0 = sv := by injection hsv
    exact hc
  · rename_i hc
    split at h
    · simp at h
    · rename_i cfg hf
      split at h
      · simp at h
      · rename_i m3 hup
        split at h
        · rename_i sv1 hc2
          obtain ⟨rfl, hsv⟩ := Prod.mk.injEq .. |>.mp h
          obtain rfl : sv1 = sv := by injection hsv
          exact hc2
        · simp at h

/-- Sanity: `svEmail` really is what `Survey.__init__` produces from `cfgEmail`. -/
theorem svEmail_fromConfig :
    Survey.fromConfig (fun _ _ => true) cfgEmail = some svEmail := rfl

/-! ## C1 — verification tokens are not single-use -/

/-- C1 counterexample:   The claim says a second `verify` call with an
already-consumed token fails with `InvalidToken`.  On the concrete email-mode
survey `svEmail` with pending token `tok1`, the first `verify` succeeds, yet
the second `verify` with the same token succeeds again (error `none`), not
`InvalidToken`: the code never removes the pending submission, so the token
is not consumed. -/
theorem c1_second_verify_not_invalid_token :
    (Survey.verify svEmail dbEmail0 10 "tok1").2 = none ∧
    (Survey.verify svEmail (Survey.verify svEmail dbEmail0 10 "tok1").1
        20 "tok1").2 ≠ some .invalidToken ∧
    (Survey.verify svEmail (Survey.verify svEmail dbEmail0 10 "tok1").1
        20 "tok1").2 = none := by
  refine ⟨by decide, by decide, by decide⟩

/-- C1 amended:   For every email-mode survey within its open window:
a successful `verify(token)` migrates a copy of the pending submission into
the verified store but leaves the pending collection unchanged, so a second
`verify` with the same token succeeds again instead of failing with
`InvalidToken`; the token is not consumed. -/
theorem c1_token_not_consumed
    (sv : Survey) (db : Database) (S E t1 t2 : Int) (tok : String)
    (sub data ev : Value)
    (hauth : sv.authentication = .vstr "email")
    (hstart : sv.start = .vint S) (hend : sv.end_ = .vint E)
    (h1s : S ≤ t1) (h1e : t1 < E) (h2s : S ≤ t2) (h2e : t2 < E)
    (hfind : findOneColl db (pendingCollName sv) [("_id", .vstr tok)] = some sub)
    (hdata : dictGet sub "data" = some data)
    (hev : emailAccess sv.ei data = some ev) :
    (Survey.verify sv db t1 tok).2 = none ∧
    getColl (Survey.verify sv db t1 tok).1 (pendingCollName sv)
      = getColl db (pendingCollName sv) ∧
    (Survey.verify sv (Survey.verify sv db t1 tok).1 t2 tok).2 = none := by
  have hlt1 : pyLt (.vint t1) sv.start = some false := by
    rw [hstart]; unfold pyLt; simp; omega
  have hge1 : pyGe (.vint t1) sv.end_ = some false := by
    rw [hend]; unfold pyGe; simp; omega
  have hlt2 : pyLt (.vint t2) sv.start = some false := by
    rw [hstart]; unfold pyLt; simp; omega
  have hge2 : pyGe (.vint t2) sv.end_ = some false := by
    rw [hend]; unfold pyGe; simp; omega
  have hdata1 : ∀ t : Int,
      dictGet (dictSet sub "verification_time" (.vint t)) "data" = some data := by
    intro t
    rw [dictGet_dictSet_other _ _ _ _ (by decide)]
    exact hdata
  have hv1 := verify_success_eq sv db t1 tok sub data ev hauth hlt1 hge1
    hfind (hdata1 t1) hev
  have hpending : getColl (Survey.verify sv db t1 tok).1 (pendingCollName sv)
      = getColl db (pendingCollName sv) := by
    rw [hv1]
    exact getColl_setColl_other _ _ _ _ (pendingCollName_ne_verifiedCollName sv)
  have hfind2 : findOneColl (Survey.verify sv db t1 tok).1 (pendingCollName sv)
      [("_id", .vstr tok)] = some sub := by
    unfold findOneColl
    rw [hpending]
    exact hfind
  have hv2 := verify_success_eq sv (Survey.verify sv db t1 tok).1 t2 tok sub
    data ev hauth hlt2 hge2 hfind2 (hdata1 t2) hev
  exact ⟨by rw [hv1], hpending, by rw [hv2]⟩

/-- C1 amended witness:  the amended theorem applied to the concrete
fixture survey and database. -/
theorem c1_token_not_consumed_witness :
    (Survey.verify svEmail dbEmail0 10 "tok1").2 = none ∧
    getColl (Survey.verify svEmail dbEmail0 10 "tok1").1 (pendingCollName svEmail)
      = getColl dbEmail0 (pendingCollName svEmail) ∧
    (Survey.verify svEmail (Survey.verify svEmail dbEmail0 10 "tok1").1
        20 "tok1").2 = none :=
  c1_token_not_consumed svEmail dbEmail0 0 100 10 20 "tok1"
    pendingDoc1 (.vdict [("1", .vstr "ada@example.com")]) (.vstr "ada@example.com")
    (by decide) (by decide) (by decide)
    (by decide) (by decide) (by decide) (by decide)
    (by decide) (by decide) (by decide)

/-! ## C2 — update, the stale cache, and the next fetch -/

/-- C2, the code contradicting the claim:   On the concrete manager:
`update` replaces the stored document with the new configuration but then
raises an assertion failure before the cache refresh, so it never returns
successfully, and the next `fetch` of the key serves the *old* configuration
from the stale cached `Survey` — its title is still `"Old title"`, not the
updated `"New title"`. -/
theorem c2_update_leaves_stale_cache :
    (managerUpdate managerC2 "alice" "vote" cfgNewBody).2
      = some .assertionError ∧
    findOneColl (managerUpdate managerC2 "alice" "vote" cfgNewBody).1.db
        "configurations"
        [("username", .vstr "alice"), ("survey_name", .vstr "vote")]
      = some (dictSet cfgNewBody "username" (.vstr "alice")) ∧
    (managerFetch (managerUpdate managerC2 "alice" "vote" cfgNewBody).1
        "alice" "vote").2
      = .ok (dictRemove cfgOld "username") ∧
    dictGet (dictRemove cfgOld "username") "title"
      = some (.vstr "Old title") ∧
    dictGet (dictSet cfgNewBody "username" (.vstr "alice")) "title"
      = some (.vstr "New title") := by
  refine ⟨by decide, by decide, ?_, by decide, by decide⟩
  rfl

/-! ## C3 — the contradictory assertion pair in `_update` -/

/-- C3:   The assertion pair of `_update` (lines 150–151) is jointly
unsatisfiable: `_update` never succeeds and never refreshes the cache, and
every execution that passes the replace step (the configuration validates,
the body is a dict, and `replace_one` matched a document) raises an
assertion failure before the cache refresh. -/
theorem c3_update_assertions_unsatisfiable (m : Manager)
    (username survey_name : String) (configuration : Value) :
    (managerUpdate m username survey_name configuration).2 ≠ none ∧
    (managerUpdate m username survey_name configuration).1.cache = m.cache ∧
    (m.cfgValidate configuration = true →
     ∀ entries, configuration = .vdict entries →
      (replaceOneDocs (getColl m.db "configurations")
        [("username", .vstr username), ("survey_name", .vstr survey_name)]
        (dictSet configuration "username" (.vstr username))).2 ≠ 0 →
      (managerUpdate m username survey_name configuration).2
        = some .assertionError) := by
  refine ⟨(managerUpdate_never_ok m username survey_name configuration).1,
          (managerUpdate_never_ok m username survey_name configuration).2, ?_⟩
  intro hval entries hcfg hmatch
  subst hcfg
  unfold managerUpdate
  simp only [hval, not_true, if_false]
  rw [if_neg hmatch]
  by_cases hk : hasKey (dictSet (Value.vdict entries) "username"
      (Value.vstr username)) "_id" = true
  · rw [if_pos hk]
  · rw [if_neg hk, if_pos hk]

/-- C3 witness:  the general theorem applied to the concrete update of
`managerC2`: the call does not succeed, leaves the cache unchanged, and
(since it validates, the body is a dict and the replace matched) raises the
assertion failure. -/
theorem c3_update_assertions_unsatisfiable_witness :
    (managerUpdate managerC2 "alice" "vote" cfgNewBody).2 ≠ none ∧
    (managerUpdate managerC2 "alice" "vote" cfgNewBody).1.cache
      = managerC2.cache ∧
    (managerUpdate managerC2 "alice" "vote" cfgNewBody).2
      = some .assertionError :=
  ⟨(c3_update_assertions_unsatisfiable managerC2 "alice" "vote" cfgNewBody).1,
   (c3_update_assertions_unsatisfiable managerC2 "alice" "vote" cfgNewBody).2.1,
   (c3_update_assertions_unsatisfiable managerC2 "alice" "vote" cfgNewBody).2.2
     (by decide) _ rfl (by decide)⟩

/-! ## C4 — time gating with exact boundaries -/

/-- C4 counterexample:   The claim says a null `start` makes the survey
unbounded on that side, the `NotOpenYet` gate never firing.  On the concrete
open-mode survey with `start = None` (end 100), a submit at time 5 with a
valid payload does not proceed: the comparison `submission_time < self.start`
against `None` is a Python `TypeError`, so the call fails with an unhandled
error rather than treating the survey as open. -/
theorem c4_null_start_type_error :
    (Survey.submit svNullStart [] 5 [] 200 (.vdict [("1", .vstr "hi")])).2
      = some .pyError ∧
    (Survey.submit svNullStart [] 5 [] 200 (.vdict [("1", .vstr "hi")])).2
      ≠ none := by
  refine ⟨by decide, by decide⟩

/-- C4 amended:   For integer `start`/`end` the gating is exactly as
claimed, boundaries included: `submit` strictly before `start` fails
`NotOpenYet`; at or after `end` fails `Closed`; in `[start, end)` neither
gate fires (`now == start` is open, `now == end` is closed); `aggregate`
strictly before `end` fails `NotYetClosed` and at or after `end` never does.
A null `start` or `end`, however, does not make the survey unbounded on that
side: the comparison against null raises a type error whenever the
corresponding gate is evaluated, in `submit` and in `aggregate`. -/
theorem c4_time_gating_amended :
    (∀ (sv : Survey) (db : Database) (S t : Int) (tokens : List String)
        (ms : Int) (sub : Value), sv.start = .vint S → t < S →
      (Survey.submit sv db t tokens ms sub).2 = some .notOpenYet) ∧
    (∀ (sv : Survey) (db : Database) (S E t : Int) (tokens : List String)
        (ms : Int) (sub : Value), sv.start = .vint S → sv.end_ = .vint E →
        S ≤ E → E ≤ t →
      (Survey.submit sv db t tokens ms sub).2 = some .closed) ∧
    (∀ (sv : Survey) (db : Database) (S E t : Int) (tokens : List String)
        (ms : Int) (sub : Value), sv.start = .vint S → sv.end_ = .vint E →
        S ≤ t → t < E →
      (Survey.submit sv db t tokens ms sub).2 ≠ some .notOpenYet ∧
      (Survey.submit sv db t tokens ms sub).2 ≠ some .closed) ∧
    (∀ (sv : Survey) (db : Database) (E t : Int), sv.end_ = .vint E → t < E →
      Survey.aggregate sv db t = .error .notYetClosed) ∧
    (∀ (sv : Survey) (db : Database) (E t : Int), sv.end_ = .vint E → E ≤ t →
      Survey.aggregate sv db t ≠ .error .notYetClosed) ∧
    (∀ (sv : Survey) (db : Database) (t : Int) (tokens : List String)
        (ms : Int) (sub : Value), sv.start = .vnull →
      (Survey.submit sv db t tokens ms sub).2 = some .pyError) ∧
    (∀ (sv : Survey) (db : Database) (S t : Int) (tokens : List String)
        (ms : Int) (sub : Value), sv.start = .vint S → S ≤ t →
        sv.end_ = .vnull →
      (Survey.submit sv db t tokens ms sub).2 = some .pyError) ∧
    (∀ (sv : Survey) (db : Database) (t : Int), sv.end_ = .vnull →
      Survey.aggregate sv db t = .error .pyError) := by
  refine ⟨?_, ?_, ?_, ?_, ?_, ?_, ?_, ?_⟩
  · intro sv db S t tokens ms sub hstart ht
    have hlt : pyLt (.vint t) sv.start = some true := by
      rw [hstart]; unfold pyLt; simp; omega
    unfold Survey.submit
    simp only [hlt]
  · intro sv db S E t tokens ms sub hstart hend hse het
    have hlt : pyLt (.vint t) sv.start = some false := by
      rw [hstart]; unfold pyLt; simp; omega
    have hge : pyGe (.vint t) sv.end_ = some true := by
      rw [hend]; unfold pyGe; simp; omega
    unfold Survey.submit
    simp only [hlt, hge]
  · intro sv db S E t tokens ms sub hstart hend hst hte
    have hlt : pyLt (.vint t) sv.start = some false := by
      rw [hstart]; unfold pyLt; simp; omega
    have hge : pyGe (.vint t) sv.end_ = some false := by
      rw [hend]; unfold pyGe; simp; omega
    unfold Survey.submit
    simp only [hlt, hge]
    constructor <;>
    · split <;> try simp
      all_goals (split <;> try simp)
      all_goals (split <;> try simp)
      all_goals (split <;> try simp)
      all_goals (split <;> try simp)
      all_goals (split <;> try simp)
      all_goals (split <;> try simp)
  · intro sv db E t hend ht
    have hlt : pyLt (.vint t) sv.end_ = some true := by
      rw [hend]; unfold pyLt; simp; omega
    unfold Survey.aggregate
    simp only [hlt]
  · intro sv db E t hend ht
    have hlt : pyLt (.vint t) sv.end_ = some false := by
      rw [hend]; unfold pyLt; simp; omega
    unfold Survey.aggregate
    simp only [hlt]
    split <;> simp
  · intro sv db t tokens ms sub hstart
    have hlt : pyLt (.vint t) sv.start = none := by
      rw [hstart]; unfold pyLt; simp
    unfold Survey.submit
    simp only [hlt]
  · intro sv db S t tokens ms sub hstart hst hend
    have hlt : pyLt (.vint t) sv.start = some false := by
      rw [hstart]; unfold pyLt; simp; omega
    have hge : pyGe (.vint t) sv.end_ = none := by
      rw [hend]; unfold pyGe; simp
    unfold Survey.submit
    simp only [hlt, hge]
  · intro sv db t hend
    have hlt : pyLt (.vint t) sv.end_ = none := by
      rw [hend]; unfold pyLt; simp
    unfold Survey.aggregate
    simp only [hlt]

/-- C4 amended witness:  the amended gating theorem applied to the
fixture survey (window `[0, 100)`) at boundary times, and to the null-bound
surveys. -/
theorem c4_time_gating_amended_witness :
    (Survey.submit svEmail dbEmail0 (-1) ["t1"] 200 (.vdict [("1", .vstr "a@b.c")])).2
      = some .notOpenYet ∧
    (Survey.submit svEmail dbEmail0 100 ["t1"] 200 (.vdict [("1", .vstr "a@b.c")])).2
      = some .closed ∧
    ((Survey.submit svEmail dbEmail0 0 ["t1"] 200 (.vdict [("1", .vstr "a@b.c")])).2
      ≠ some .notOpenYet ∧
     (Survey.submit svEmail dbEmail0 0 ["t1"] 200 (.vdict [("1", .vstr "a@b.c")])).2
      ≠ some .closed) ∧
    Survey.aggregate svEmail dbEmail0 99 = .error .notYetClosed ∧
    Survey.aggregate svEmail dbEmail0 100 ≠ .error .notYetClosed ∧
    (Survey.submit svNullStart [] 5 [] 200 (.vdict [("1", .vstr "hi")])).2
      = some .pyError :=
  ⟨c4_time_gating_amended.1 svEmail dbEmail0 0 (-1) ["t1"] 200 _
      (by decide) (by decide),
   c4_time_gating_amended.2.1 svEmail dbEmail0 0 100 100 ["t1"] 200 _
      (by decide) (by decide) (by decide) (by decide),
   c4_time_gating_amended.2.2.1 svEmail dbEmail0 0 100 0 ["t1"] 200 _
      (by decide) (by decide) (by decide) (by decide),
   c4_time_gating_amended.2.2.2.1 svEmail dbEmail0 100 99
      (by decide) (by decide),
   c4_time_gating_amended.2.2.2.2.1 svEmail dbEmail0 100 100
      (by decide) (by decide),
   c4_time_gating_amended.2.2.2.2.2.1 svNullStart [] 5 [] 200 _ (by decide)⟩

/-! ## C5 — last-verified-wins upsert keyed by email value -/

/-- C5:   Two successful verifications whose pending submissions carry the
same email value leave exactly one verified record under that email value —
the later one: the second upsert (`find_one_and_replace` with `upsert=True`,
filtered by `_id` = email value) overwrites rather than duplicates, provided
the verified store held at most one record under that value to begin with
(which the store's `_id` uniqueness guarantees). -/
theorem c5_last_verified_wins
    (sv : Survey) (db : Database) (S E t1 t2 : Int) (tk1 tk2 : String)
    (sub1 sub2 data1 data2 e : Value)
    (hauth : sv.authentication = .vstr "email")
    (hstart : sv.start = .vint S) (hend : sv.end_ = .vint E)
    (h1s : S ≤ t1) (h1e : t1 < E) (h2s : S ≤ t2) (h2e : t2 < E)
    (hfind1 : findOneColl db (pendingCollName sv) [("_id", .vstr tk1)] = some sub1)
    (hfind2 : findOneColl db (pendingCollName sv) [("_id", .vstr tk2)] = some sub2)
    (hdata1 : dictGet sub1 "data" = some data1)
    (hdata2 : dictGet sub2 "data" = some data2)
    (hev1 : emailAccess sv.ei data1 = some e)
    (hev2 : emailAccess sv.ei data2 = some e)
    (hinit : ((getColl db (verifiedCollName sv)).filter
        (docMatches [("_id", e)])).length ≤ 1) :
    (getColl (Survey.verify sv (Survey.verify sv db t1 tk1).1 t2 tk2).1
        (verifiedCollName sv)).filter (docMatches [("_id", e)])
      = [dictSet (dictSet sub2 "verification_time" (.vint t2)) "_id" e] ∧
    dictGet (dictSet (dictSet sub2 "verification_time" (.vint t2)) "_id" e)
        "data" = some data2 := by
  have hlt1 : pyLt (.vint t1) sv.start = some false := by
    rw [hstart]; unfold pyLt; simp; omega
  have hge1 : pyGe (.vint t1) sv.end_ = some false := by
    rw [hend]; unfold pyGe; simp; omega
  have hlt2 : pyLt (.vint t2) sv.start = some false := by
    rw [hstart]; unfold pyLt; simp; omega
  have hge2 : pyGe (.vint t2) sv.end_ = some false := by
    rw [hend]; unfold pyGe; simp; omega
  have hd1 : dictGet (dictSet sub1 "verification_time" (.vint t1)) "data"
      = some data1 := by
    rw [dictGet_dictSet_other _ _ _ _ (by decide)]; exact hdata1
  have hd2 : dictGet (dictSet sub2 "verification_time" (.vint t2)) "data"
      = some data2 := by
    rw [dictGet_dictSet_other _ _ _ _ (by decide)]; exact hdata2
  have hv1 := verify_success_eq sv db t1 tk1 sub1 data1 e hauth hlt1 hge1
    hfind1 hd1 hev1
  have hpend1 : getColl (Survey.verify sv db t1 tk1).1 (pendingCollName sv)
      = getColl db (pendingCollName sv) := by
    rw [hv1]
    exact getColl_setColl_other _ _ _ _ (pendingCollName_ne_verifiedCollName sv)
  have hfind2b : findOneColl (Survey.verify sv db t1 tk1).1 (pendingCollName sv)
      [("_id", .vstr tk2)] = some sub2 := by
    unfold findOneColl
    rw [hpend1]
    exact hfind2
  have hv2 := verify_success_eq sv (Survey.verify sv db t1 tk1).1 t2 tk2 sub2
    data2 e hauth hlt2 hge2 hfind2b hd2 hev2
  -- the replacement documents both match the filter on the shared email value
  obtain ⟨l1, hl1⟩ := dictGet_some_vdict sub1 "data" data1 hdata1
  obtain ⟨l2, hl2⟩ := dictGet_some_vdict sub2 "data" data2 hdata2
  have hm1 : docMatches [("_id", e)]
      (dictSet (dictSet sub1 "verification_time" (.vint t1)) "_id" e) = true := by
    rw [docMatches_id]
    subst hl1
    simp [dictSet, dictGet, lookupKey_setKey_self]
  have hm2 : docMatches [("_id", e)]
      (dictSet (dictSet sub2 "verification_time" (.vint t2)) "_id" e) = true := by
    rw [docMatches_id]
    subst hl2
    simp [dictSet, dictGet, lookupKey_setKey_self]
  -- verified store after the first call: exactly the first re-keyed record
  have hstep1 : (getColl (Survey.verify sv db t1 tk1).1
        (verifiedCollName sv)).filter (docMatches [("_id", e)])
      = [dictSet (dictSet sub1 "verification_time" (.vint t1)) "_id" e] := by
    rw [hv1]
    rw [getColl_setColl_self]
    exact upsertDocs_filter _ _ _ hm1 hinit
  -- verified store after the second call: exactly the second re-keyed record
  have hstep2 : (getColl (Survey.verify sv (Survey.verify sv db t1 tk1).1
        t2 tk2).1 (verifiedCollName sv)).filter (docMatches [("_id", e)])
      = [dictSet (dictSet sub2 "verification_time" (.vint t2)) "_id" e] := by
    rw [hv2]
    rw [getColl_setColl_self]
    apply upsertDocs_filter _ _ _ hm2
    rw [hstep1]
    simp
  refine ⟨hstep2, ?_⟩
  rw [dictGet_dictSet_other _ _ _ _ (by decide)]
  exact hd2

/-- C5 witness:  on the fixture, verifying `tok1` at time 10 and then
`tok2` at time 15 (same email address) leaves exactly one verified record,
holding the second submission's payload. -/
theorem c5_last_verified_wins_witness :
    (getColl (Survey.verify svEmail (Survey.verify svEmail dbEmail0 10 "tok1").1
        15 "tok2").1 (verifiedCollName svEmail)).filter
        (docMatches [("_id", .vstr "ada@example.com")])
      = [dictSet (dictSet pendingDoc2 "verification_time" (.vint 15)) "_id"
          (.vstr "ada@example.com")] ∧
    dictGet (dictSet (dictSet pendingDoc2 "verification_time" (.vint 15)) "_id"
        (.vstr "ada@example.com")) "data"
      = some (.vdict [("1", .vstr "ada@example.com"), ("note", .vstr "later")]) :=
  c5_last_verified_wins svEmail dbEmail0 0 100 10 15 "tok1" "tok2"
    pendingDoc1 pendingDoc2
    (.vdict [("1", .vstr "ada@example.com")])
    (.vdict [("1", .vstr "ada@example.com"), ("note", .vstr "later")])
    (.vstr "ada@example.com")
    (by decide) (by decide) (by decide)
    (by decide) (by decide) (by decide) (by decide)
    (by decide) (by decide) (by decide) (by decide)
    (by decide) (by decide) (by decide)

/-! ## C6 — what `reset` actually deletes -/

/-- C6, the code contradicting the claim:   `reset` drops the pending
collection, deletes the stored result document and preserves the
configuration — but it drops `surveys.{id}.verified-submissions`, while the
`Survey` writes its verified records to `surveys.{id}.submissions.verified`,
so the verified submissions survive the reset; and the cache is never
touched, so the cached `Survey`'s in-memory `AggregateResult` survives as
well. -/
theorem c6_reset_misses_verified_and_memo :
    getColl (managerReset managerC6 "alice" "vote").db
        (pendingCollName svEmail) = [] ∧
    getColl (managerReset managerC6 "alice" "vote").db
        (verifiedCollName svEmail) = [verifiedDocC6] ∧
    findOneColl (managerReset managerC6 "alice" "vote").db "configurations"
        [("username", .vstr "alice"), ("survey_name", .vstr "vote")]
      = some cfgEmail ∧
    findOneColl (managerReset managerC6 "alice" "vote").db "results"
        [("_id", .vstr "alice.vote")] = none ∧
    (managerReset managerC6 "alice" "vote").cache = managerC6.cache ∧
    (cacheGet (managerReset managerC6 "alice" "vote").cache
        (combine "alice" "vote")).map Survey.results
      = some (.vdict [("Your email", .vint 1)]) := by
  refine ⟨by decide, by decide, by decide, by decide, rfl, by decide⟩

/-! ## C7 — aggregate memoization keyed on truthiness -/

/-- C7 counterexample:   The claim says every aggregate call after the
first returns the stored result without invoking the Aggregator again.  On
the concrete closed survey whose aggregated result is the empty dict, the
first call invokes the Aggregator (third component `true`) and stores `{}` —
but `{}` is falsy, so the second call on the updated instance invokes the
Aggregator again instead of returning the memo. -/
theorem c7_falsy_result_reinvokes :
    (Survey.aggregate svNoFields [] 11).toOption.map (fun x => (x.2.1, x.2.2))
      = some (.vdict [], true) ∧
    ((Survey.aggregate svNoFields [] 11).toOption.bind (fun x =>
        (Survey.aggregate x.1 [] 12).toOption.map (fun y => (y.2.1, y.2.2))))
      = some (.vdict [], true) := by
  exact ⟨rfl, rfl⟩

/-- C7 amended:   For a survey at or past its end time: a first
`aggregate` with an empty memo (`results` is `None`) invokes the Aggregator,
stores the result on the instance and returns it; a later call returns the
stored in-memory result without invoking the Aggregator again *provided the
stored result is truthy* — the memo check is `self.results or ...`, i.e.
Python truthiness, not presence.  (A falsy result is re-computed on every
call, as the counterexample shows; consecutive calls still return equal
results because the Aggregator is pure in the unchanged verified store.) -/
theorem c7_memoization_amended
    (sv : Survey) (db : Database) (E t1 t2 : Int)
    (hend : sv.end_ = .vint E) (h1 : E ≤ t1) (h2 : E ≤ t2) :
    (sv.results = .vnull →
      Survey.aggregate sv db t1
        = .ok ({ sv with results := (alligatorFetch sv.configuration
                  (getColl db (verifiedCollName sv))) },
               alligatorFetch sv.configuration (getColl db (verifiedCollName sv)),
               true)) ∧
    (truthy sv.results = true →
      Survey.aggregate sv db t2 = .ok (sv, sv.results, false)) ∧
    (∀ r : Value, truthy r = true →
      Survey.aggregate ({ sv with results := r }) db t2
        = .ok ({ sv with results := r }, r, false)) := by
  have hlt1 : pyLt (.vint t1) sv.end_ = some false := by
    rw [hend]; unfold pyLt; simp; omega
  have hlt2 : pyLt (.vint t2) sv.end_ = some false := by
    rw [hend]; unfold pyLt; simp; omega
  refine ⟨?_, ?_, ?_⟩
  · intro hres
    unfold Survey.aggregate
    simp only [hlt1, hres]
    rfl
  · intro htr
    unfold Survey.aggregate
    simp only [hlt2, htr, if_true]
  · intro r htr
    unfold Survey.aggregate
    simp only [hlt2, htr, if_true]

/-- C7 amended witness:  on the cached fixture survey with its truthy
in-memory result, an aggregate call at the closing boundary returns the memo
without invoking the Aggregator. -/
theorem c7_memoization_amended_witness :
    Survey.aggregate svCached dbEmail0 100
      = .ok (svCached, svCached.results, false) :=
  (c7_memoization_amended svCached dbEmail0 100 100 100 rfl
    (by decide) (by decide)).2.1 (by decide)

/-! ## C8 — per-record "andere" bucket counting -/

/-- C8 counterexample: the claim says one record can increment a given
bucket at most once even when the same free-text value appears twice inside
that record.  On the single concrete record `recordC8`, whose `pr` "andere"
list is `["x", "x"]`, the endpoint's `fetch` reports bucket `x` with count
2, although only one record contains `x`: the loop of lines 56-60 adds one
per occurrence and performs no per-record deduplication. -/
theorem c8_duplicate_andere_double_count :
    ((survey2Fetch [recordC8]).bind (fun r =>
      (dictGet r "pr").bind (fun p =>
        (dictGet p "andere").bind (fun a => dictGet a "x"))))
      = some (.vint 2) ∧
    ([recordC8] : List Value).length = 1 := by
  exact ⟨by decide, rfl⟩

/-- C8 amended: the aggregated count of each distinct free-text "andere"
value equals the number of records in which it occurs *provided* each
record's "andere" list is duplicate-free — the invariant the endpoint
assumes from upstream (line 55: "List already made unique") but does not
enforce.  `andereTally` is the bucket evolution that `fetch`
(via `survey2CountStep`, which calls `andereRecord`) applies to one
referat's bucket dict over the records' lists; with per-list `Nodup`, each
value's bucket holds exactly the number of lists containing it, and values
occurring nowhere have no bucket. -/
theorem c8_andere_counts_amended (lists : List (List Value))
    (hstr : ∀ l ∈ lists, ∀ a ∈ l, ∃ s : String, a = .vstr s)
    (hnd : ∀ l ∈ lists, l.Nodup) :
    ∃ b, andereTally lists = some b ∧ ∀ v : String,
      dictGet b v
        = if lists.countP (fun l => decide ((Value.vstr v) ∈ l)) = 0 then none
          else some (.vint
            (lists.countP (fun l => decide ((Value.vstr v) ∈ l)))) := by
  obtain ⟨b2, hb2, -, hget⟩ := andereFold_props lists (.vdict [])
    ⟨[], rfl, by simp⟩ hstr
  refine ⟨b2, hb2, fun v => ?_⟩
  rw [hget v, sum_counts_eq_countP (.vstr v) lists hnd]
  rw [show dictGet (Value.vdict []) v = none from rfl]
  rw [show curVal none = 0 from rfl]
  rw [zero_add]

/-- C8 amended witness: three records with lists `["x"]`, `["x"]`, `["y"]`
(each duplicate-free) tally to bucket `x` = 2 and bucket `y` = 1. -/
theorem c8_andere_counts_amended_witness :
    ∃ b, andereTally [[.vstr "x"], [.vstr "x"], [.vstr "y"]] = some b ∧
      ∀ v : String, dictGet b v
        = if ([[Value.vstr "x"], [.vstr "x"], [.vstr "y"]]
              : List (List Value)).countP
              (fun l => decide ((Value.vstr v) ∈ l)) = 0 then none
          else some (.vint
            (([[Value.vstr "x"], [.vstr "x"], [.vstr "y"]]
              : List (List Value)).countP
              (fun l => decide ((Value.vstr v) ∈ l)))) :=
  c8_andere_counts_amended [[.vstr "x"], [.vstr "x"], [.vstr "y"]]
    (by simp) (by decide)

/-! ## C9 — email-field index and the email-value accesses -/

/-- C9:   The email-field index is the 0-based position of the first
field of type `'email'` and `None` when no such field exists; the email
accesses of `submit`/`verify` read the submission value at key
`str(ei + 1)` and are defined only when an email field exists — with
`ei = None`, `verify` (past its mode, time and token checks) dies with the
unhandled Python `TypeError` of `None + 1` instead of a typed domain
error. -/
theorem c9_email_field_lookup :
    (∀ (cfg : Value) (fs : List Value),
      dictGet cfg "fields" = some (.vlist fs) →
      (getEmailFieldIndex cfg = none ↔
        ∀ f ∈ fs, dictGet f "type" ≠ some (.vstr "email"))) ∧
    (∀ (cfg : Value) (fs : List Value) (i : Nat),
      dictGet cfg "fields" = some (.vlist fs) →
      getEmailFieldIndex cfg = some i →
      i < fs.length ∧
      (∃ f, fs[i]? = some f ∧ dictGet f "type" = some (.vstr "email")) ∧
      (∀ j, j < i → ∀ g, fs[j]? = some g →
        dictGet g "type" ≠ some (.vstr "email"))) ∧
    (∀ data : Value, emailAccess none data = none) ∧
    (∀ (i : Nat) (data : Value),
      emailAccess (some i) data = dictGet data (toString (i + 1))) ∧
    (∀ (sv : Survey) (db : Database) (S E t : Int) (tok : String)
        (sub data : Value),
      sv.authentication = .vstr "email" → sv.start = .vint S →
      sv.end_ = .vint E → S ≤ t → t < E →
      findOneColl db (pendingCollName sv) [("_id", .vstr tok)] = some sub →
      dictGet sub "data" = some data →
      sv.ei = none →
      Survey.verify sv db t tok = (db, some .pyError)) := by
  refine ⟨?_, ?_, fun _ => rfl, fun _ _ => rfl, ?_⟩
  · intro cfg fs hfields
    unfold getEmailFieldIndex
    rw [hfields]
    rw [findIdxQ_none_iff]
    simp
  · intro cfg fs i hfields hidx
    unfold getEmailFieldIndex at hidx
    rw [hfields] at hidx
    have h := findIdxQ_some_spec _ fs 0 i hidx
    simp only [Nat.sub_zero] at h
    obtain ⟨-, hlen, ⟨f, hf, hpf⟩, hmin⟩ := h
    refine ⟨hlen, ⟨f, hf, by simpa using hpf⟩, ?_⟩
    intro j hj g hg
    have := hmin j hj g hg
    simpa using this
  · intro sv db S E t tok sub data hauth hstart hend hst hte hfind hdata hei
    have hne : ¬ (Value.vstr "email" ≠ Value.vstr "email") := by simp
    have hlt : pyLt (.vint t) sv.start = some false := by
      rw [hstart]; unfold pyLt; simp; omega
    have hge : pyGe (.vint t) sv.end_ = some false := by
      rw [hend]; unfold pyGe; simp; omega
    have hdata1 : dictGet (dictSet sub "verification_time" (.vint t)) "data"
        = some data := by
      rw [dictGet_dictSet_other _ _ _ _ (by decide)]
      exact hdata
    unfold Survey.verify
    rw [hauth]
    simp only [hne, if_false, hlt, hge, hfind, hdata1, hei]
    rfl

/-- C9 witness:  the lookup theorem applied to the concrete
configurations: `cfgNoEmail` has no email field and its index is `None`;
`cfgEmail`'s index is 0 and points at the email field; and `verify` on the
index-less survey dies with the unhandled error even for a valid token. -/
theorem c9_email_field_lookup_witness :
    getEmailFieldIndex cfgNoEmail = none ∧
    (0 < 1 ∧
     (∃ f, [(.vdict [("type", .vstr "email"), ("title", .vstr "Your email")]
          : Value)][(0 : Nat)]? = some f ∧
        dictGet f "type" = some (.vstr "email")) ∧
     (∀ j, j < 0 → ∀ g,
        [(.vdict [("type", .vstr "email"), ("title", .vstr "Your email")]
          : Value)][j]? = some g →
        dictGet g "type" ≠ some (.vstr "email"))) ∧
    emailAccess none (.vdict [("1", .vstr "ada@example.com")]) = none ∧
    Survey.verify svNoEmail dbNoEmail 10 "tok1" = (dbNoEmail, some .pyError) :=
  ⟨(c9_email_field_lookup.1 cfgNoEmail
      [.vdict [("type", .vstr "text"), ("title", .vstr "Q1")]]
      (by decide)).mpr (by decide),
   c9_email_field_lookup.2.1 cfgEmail
      [.vdict [("type", .vstr "email"), ("title", .vstr "Your email")]] 0
      (by decide) (by decide),
   c9_email_field_lookup.2.2.1 (.vdict [("1", .vstr "ada@example.com")]),
   c9_email_field_lookup.2.2.2.2 svNoEmail dbNoEmail 0 100 10 "tok1"
      pendingDoc1 (.vdict [("1", .vstr "ada@example.com")])
      rfl rfl rfl (by decide) (by decide) (by decide) (by decide) rfl⟩

/-! ## C10 — the public fetch projection -/

/-- C10:   A successful public `fetch` returns exactly the cached
`Survey`'s configuration with the `'username'` key removed: `'username'`
maps to nothing, and every other key maps to its stored value unchanged. -/
theorem c10_fetch_projection (m : Manager) (username survey_name : String)
    (m2 : Manager) (pub : Value)
    (h : managerFetch m username survey_name = (m2, .ok pub)) :
    ∃ sv : Survey,
      cacheGet m2.cache (combine username survey_name) = some sv ∧
      ∀ k : String, dictGet pub k
        = if k = "username" then none else dictGet sv.configuration k := by
  unfold managerFetch at h
  split at h
  · simp at h
  · rename_i m3 sv hs
    split at h
    · rename_i entries hcfg
      obtain ⟨rfl, hpub⟩ := Prod.mk.injEq .. |>.mp h
      injection hpub with hpub2
      subst hpub2
      refine ⟨sv, managerFetchSurvey_cached m username survey_name _ sv hs, ?_⟩
      intro k
      rw [show dictGet
            (Value.vdict (entries.filter (fun kv => kv.1 ≠ "username"))) k
            = lookupKey (entries.filter (fun kv => kv.1 ≠ "username")) k
            from rfl]
      rw [lookupKey_filter_ne, hcfg]
      rfl
    · simp at h

/-- C10 witness:  a concrete fetch against `managerC6` returns the
configuration of the cached survey with exactly the `username` key
removed. -/
theorem c10_fetch_projection_witness :
    ∃ sv : Survey,
      cacheGet managerC6.cache (combine "alice" "vote") = some sv ∧
      ∀ k : String, dictGet (.vdict [
          ("survey_name", .vstr "vote"),
          ("start", .vint 0),
          ("end", .vint 100),
          ("authentication", .vstr "email"),
          ("title", .vstr "Vote"),
          ("fields", .vlist [.vdict [("type", .vstr "email"),
                                     ("title", .vstr "Your email")]])]) k
        = if k = "username" then none else dictGet sv.configuration k :=
  c10_fetch_projection managerC6 "alice" "vote" managerC6 _ (by rfl)
